import Mathlib

/-
  Verification development for the seismic data processing tutorial
  (SeismicDataProcessing.ipynb).  The notebook orchestrates calls to an
  external seismology toolkit; the operations the specification describes
  (metadata retrieval, waveform retrieval, trace merging, filtering,
  MiniSEED persistence, visualization) are modelled here from the
  specification's words, and the notebook's concrete parameter choices are
  used as the concrete scenarios.
-/

namespace Seismic

/-- Per-trace metadata: network/station/location/channel identity, sampling
rate (Hz) and start timestamp (seconds).  Mirrors the fields of
trace.stats used by the notebook. -/
structure Stats where
  network : String
  station : String
  location : String
  channel : String
  sampling_rate : ℚ
  starttime : ℚ
deriving DecidableEq, Repr

/-- A Trace: a single time-ordered sequence of numeric samples tagged with
identity, start timestamp and sampling rate (spec section 3). -/
structure Trace where
  stats : Stats
  data : List ℤ
deriving DecidableEq, Repr

/-- Number of samples of a trace. -/
def Trace.npts (t : Trace) : ℕ := t.data.length

/-- Sampling interval: reciprocal of the sampling rate. -/
def Stats.delta (s : Stats) : ℚ := 1 / s.sampling_rate

/-- Nyquist frequency: half the sampling rate. -/
def Stats.nyquist (s : Stats) : ℚ := s.sampling_rate / 2

/-- The identity (net, sta, loc, cha) of a trace; merge only combines
traces with equal ids. -/
def Trace.traceId (t : Trace) : String × String × String × String :=
  (t.stats.network, t.stats.station, t.stats.location, t.stats.channel)

/-- End time of a trace: time of its last sample,
starttime + (npts - 1) * delta. -/
def Trace.endtime (t : Trace) : ℚ :=
  t.stats.starttime + ((t.npts : ℤ) - 1) * t.stats.delta

/-- A Waveform Collection (the toolkit's Stream): an ordered multiset of
traces, not necessarily contiguous or gap-free. -/
abbrev Stream := List Trace

/-! ### Persistence Adapter (MiniSEED write / read) -/

/-- One record of the binary container: per-trace identity, timing,
sampling rate and sample values, as the Persistence Adapter serializes
them (spec section 4.4). -/
structure MSEEDRecord where
  network : String
  station : String
  location : String
  channel : String
  sampling_rate : ℚ
  starttime : ℚ
  samples : List ℤ
deriving DecidableEq, Repr

/-- Modelled from the spec: the Persistence Adapter's write operation
(st.write with format MSEED, delegated to the external toolkit)
serializes a Waveform Collection to the binary container, preserving
per-trace identity, timing, sampling rate and sample values. -/
def writeMSEED (st : Stream) : List MSEEDRecord :=
  st.map fun t =>
    { network := t.stats.network
      station := t.stats.station
      location := t.stats.location
      channel := t.stats.channel
      sampling_rate := t.stats.sampling_rate
      starttime := t.stats.starttime
      samples := t.data }

/-- Modelled from the spec: the Persistence Adapter's read operation
(read with format MSEED, delegated to the external toolkit) reconstructs
an equivalent Waveform Collection from the binary container. -/
def readMSEED (recs : List MSEEDRecord) : Stream :=
  recs.map fun r =>
    { stats :=
        { network := r.network
          station := r.station
          location := r.location
          channel := r.channel
          sampling_rate := r.sampling_rate
          starttime := r.starttime }
      data := r.samples }

/-! ### Trace Processor: merge -/

/-- Failure kinds of the merge operation (spec section 4.3): merge must
fail explicitly when traces claim the same identity but differ in
sampling rate. -/
inductive MergeError where
  | incompatibleTraceIds
  | incompatibleSamplingRates
deriving DecidableEq, Repr

/-- Number of missing samples in the gap between the last sample of the
first trace and the first sample of the second, at the shared sampling
rate. -/
def gapSampleCount (t1 t2 : Trace) : ℕ :=
  (round ((t2.stats.starttime - t1.endtime) * t1.stats.sampling_rate) - 1).toNat

/-- Modelled from the spec: Stream.merge with method 0 and a constant
fill value (delegated to the external toolkit) combines two traces that
share identity into a single trace, filling the gap between them with
the configured constant; it fails explicitly when identities differ or
when sampling rates differ between segments claiming the same identity
(never silently resampling). -/
def mergeTwo (fill : ℤ) (t1 t2 : Trace) : Except MergeError Trace :=
  if t1.traceId ≠ t2.traceId then .error .incompatibleTraceIds
  else if t1.stats.sampling_rate ≠ t2.stats.sampling_rate then
    .error .incompatibleSamplingRates
  else .ok
    { stats := t1.stats
      data := t1.data ++ (List.replicate (gapSampleCount t1 t2) fill ++ t2.data) }

/-! ### Trace Processor: filtering -/

/-- A filter request: lowpass, highpass or bandpass with its corner
frequency or frequencies, as passed to trace.filter in the notebook. -/
inductive FilterKind where
  | lowpass (freq : ℚ)
  | highpass (freq : ℚ)
  | bandpass (freqmin freqmax : ℚ)
deriving DecidableEq, Repr

/-- The maximum corner frequency requested by a filter request. -/
def FilterKind.maxCorner : FilterKind → ℚ
  | .lowpass f => f
  | .highpass f => f
  | .bandpass _ fmax => fmax

/-- Result of a filter request: the resulting trace together with the
flag recording whether a Nyquist warning was raised. -/
structure FilterOutcome where
  trace : Trace
  nyquistWarning : Bool
deriving Repr

/-- Modelled from the spec: the Filter operation (trace.filter, delegated
to the external toolkit) validates the requested corner frequencies
against the Nyquist limit, half the sampling rate, and flags the request
with a warning when the maximum corner reaches or exceeds it; below the
limit it applies the frequency-selective transform.  The numerical
filter kernel itself lives in the external toolkit and is taken as a
parameter. -/
def traceFilter (kernel : FilterKind → List ℤ → List ℤ) (k : FilterKind)
    (t : Trace) : FilterOutcome :=
  if t.stats.nyquist ≤ k.maxCorner then
    { trace := t, nyquistWarning := true }
  else
    { trace := { t with data := kernel k t.data }, nyquistWarning := false }

/-! ### Wildcard pattern matching (network/station/channel codes) -/

/-- Fuel-indexed glob matcher over character lists: a star matches any
run of characters, a question mark matches one character, anything else
matches itself.  The fuel only forces structural recursion; each
recursive call shrinks pattern length plus subject length. -/
def globFuel : ℕ → List Char → List Char → Bool
  | 0, _, _ => false
  | _ + 1, [], [] => true
  | _ + 1, [], _ :: _ => false
  | f + 1, '*' :: ps, [] => globFuel f ps []
  | f + 1, '*' :: ps, c :: cs => globFuel f ps (c :: cs) || globFuel f ('*' :: ps) cs
  | _ + 1, '?' :: _, [] => false
  | f + 1, '?' :: ps, _ :: cs => globFuel f ps cs
  | _ + 1, _ :: _, [] => false
  | f + 1, p :: ps, c :: cs => (p == c) && globFuel f ps cs

/-- Glob matching of a code string against a wildcard pattern, as the
toolkit accepts for network, station and channel parameters. -/
def globMatch (pat s : String) : Bool :=
  globFuel (pat.toList.length + s.toList.length + 1) pat.toList s.toList

/-- A code matches a pattern list when it matches any of the patterns
(the toolkit accepts comma-separated alternatives such as AXAS1,AXAS2). -/
def patsMatch (pats : List String) (s : String) : Bool :=
  pats.any fun p => globMatch p s

/-! ### Metadata Retriever (Inventory and get_stations) -/

/-- An instrument-response entry attached to a channel when the query
asked for response-level detail. -/
structure ResponseInfo where
  sensitivity : ℚ
deriving DecidableEq, Repr

/-- A channel of the Inventory tree: a code and an optional
instrument-response entry. -/
structure InvChannel where
  code : String
  response : Option ResponseInfo
deriving DecidableEq, Repr

/-- A station of the Inventory tree: code, geographic coordinates and
its channels. -/
structure InvStation where
  code : String
  latitude : ℚ
  longitude : ℚ
  channels : List InvChannel
deriving DecidableEq, Repr

/-- A network of the Inventory tree: code and its stations. -/
structure InvNetwork where
  code : String
  stations : List InvStation
deriving DecidableEq, Repr

/-- The Inventory: hierarchical Network to Station to Channel structure
returned by the Metadata Retriever. -/
structure Inventory where
  networks : List InvNetwork
deriving DecidableEq, Repr

/-- All stations of an inventory, across networks. -/
def Inventory.stationList (inv : Inventory) : List InvStation :=
  (inv.networks.map (·.stations)).flatten

/-- All channels of an inventory, across networks and stations. -/
def Inventory.channelList (inv : Inventory) : List InvChannel :=
  (inv.stationList.map (·.channels)).flatten

/-- Number of instrument-response entries contained in an inventory. -/
def Inventory.responseCount (inv : Inventory) : ℕ :=
  (inv.channelList.filter fun c => c.response.isSome).length

/-- Detail level of a metadata query: station-only, channel, or
response detail. -/
inductive QueryLevel where
  | station
  | channel
  | response
deriving DecidableEq, Repr

/-- A metadata query: network/station/channel patterns, a time range and
a detail level, the parameter surface of client.get_stations used by the
notebook. -/
structure StationQuery where
  network : List String
  station : List String
  channel : List String
  starttime : ℚ
  endtime : ℚ
  level : QueryLevel
deriving DecidableEq, Repr

/-- One station of the remote service's metadata holdings: identity,
channel codes, coordinates, instrument sensitivity and the time span
over which the station ran. -/
structure StationRecord where
  network : String
  station : String
  channelCodes : List String
  latitude : ℚ
  longitude : ℚ
  sensitivity : ℚ
  availStart : ℚ
  availEnd : ℚ
deriving DecidableEq, Repr

/-- Whether a holdings record matches a metadata query: patterns match
the identity, some channel matches the channel pattern, and the
station's operating span overlaps the requested time range. -/
def recordMatches (q : StationQuery) (r : StationRecord) : Bool :=
  patsMatch q.network r.network && patsMatch q.station r.station &&
  r.channelCodes.any (fun c => patsMatch q.channel c) &&
  decide (r.availStart ≤ q.endtime) && decide (q.starttime ≤ r.availEnd)

/-- Builds the Inventory station for a matched record: channels filtered
by the channel pattern, response entries attached only at response-level
detail. -/
def buildStation (q : StationQuery) (r : StationRecord) : InvStation :=
  { code := r.station
    latitude := r.latitude
    longitude := r.longitude
    channels := (r.channelCodes.filter fun c => patsMatch q.channel c).map fun c =>
      { code := c
        response := if q.level = QueryLevel.response then
            some { sensitivity := r.sensitivity } else none } }

/-- Usage errors of a metadata query. -/
inductive QueryError where
  | badTimeRange
deriving DecidableEq, Repr

/-- Modelled from the spec: the Metadata Retriever (client.get_stations,
delegated to the external toolkit) reports a malformed time range (end
before start) as a usage error, and otherwise returns the Inventory of
matching holdings, grouped by network; no matching stations yields an
empty Inventory, not a failure. -/
def getStations (db : List StationRecord) (q : StationQuery) :
    Except QueryError Inventory :=
  if q.endtime < q.starttime then .error .badTimeRange
  else
    let matched := db.filter (recordMatches q)
    .ok { networks := ((matched.map (·.network)).dedup).map fun n =>
      { code := n
        stations := (matched.filter fun r => r.network == n).map (buildStation q) } }

/-- Modelled from the spec: the metadata holdings of the remote service
for the networks the notebook queries (OO stations AXAS1 and AXAS2 with
E-H channels, and an NV station), operating throughout 2015. -/
def tutorialDB : List StationRecord :=
  [{ network := "OO", station := "AXAS1", channelCodes := ["EHE", "EHN", "EHZ"]
     latitude := 4595/100, longitude := -13001/100, sensitivity := 1000
     availStart := 1400000000, availEnd := 1500000000 },
   { network := "OO", station := "AXAS2", channelCodes := ["EHE", "EHN", "EHZ"]
     latitude := 4594/100, longitude := -13000/100, sensitivity := 1000
     availStart := 1400000000, availEnd := 1500000000 },
   { network := "NV", station := "NC89", channelCodes := ["HHZ"]
     latitude := 4827/100, longitude := -12642/100, sensitivity := 1500
     availStart := 1400000000, availEnd := 1500000000 }]

/-- The notebook's metadata query: network OO, station AXAS1, channel
pattern *Z, the one-day window 2015-01-01 to 2015-01-02 (epoch seconds),
station-only detail. -/
def axasQuery : StationQuery :=
  { network := ["OO"], station := ["AXAS1"], channel := ["*Z"]
    starttime := 1420070400, endtime := 1420156800, level := QueryLevel.station }

/-- A valid query that matches no holdings: unknown network code XX over
a well-formed time range. -/
def noMatchQuery : StationQuery :=
  { network := ["XX"], station := ["*"], channel := ["*"]
    starttime := 1420070400, endtime := 1420156800, level := QueryLevel.station }

/-- A malformed query whose time range ends before it starts. -/
def badRangeQuery : StationQuery :=
  { network := ["OO"], station := ["*"], channel := ["*"]
    starttime := 1420156800, endtime := 1420070400, level := QueryLevel.station }

/-! ### Waveform Retriever (get_waveforms) -/

/-- One continuous run of archived samples held by the remote service:
identity, sampling rate, the closed time span it covers, and the sample
value recorded at each sample index (sample k lies at time
segStart + k / sampling_rate). -/
structure ArchiveSegment where
  network : String
  station : String
  location : String
  channel : String
  sampling_rate : ℚ
  segStart : ℚ
  segEnd : ℚ
  samples : ℕ → ℤ

/-- A waveform request: identity patterns plus explicit start and end
timestamps, the parameter surface of client.get_waveforms used by the
notebook. -/
structure WaveformQuery where
  network : List String
  station : List String
  location : List String
  channel : List String
  starttime : ℚ
  endtime : ℚ

/-- Whether an archived segment matches a waveform request: the patterns
match its identity and its span overlaps the requested window. -/
def segMatches (q : WaveformQuery) (g : ArchiveSegment) : Bool :=
  patsMatch q.network g.network && patsMatch q.station g.station &&
  patsMatch q.location g.location && patsMatch q.channel g.channel &&
  decide (g.segStart ≤ q.endtime) && decide (q.starttime ≤ g.segEnd)

/-- Cuts the part of an archived segment that falls inside the requested
window into a Trace: the first returned sample is the earliest archived
sample at or after the requested start, the last is the latest at or
before both the requested end and the segment end. -/
def cutSegment (q : WaveformQuery) (g : ArchiveSegment) : Trace :=
  let sr := g.sampling_rate
  let k0 : ℤ := max ⌈(q.starttime - g.segStart) * sr⌉ 0
  let reqEnd := min q.endtime g.segEnd
  let n : ℤ := ⌊(reqEnd - g.segStart) * sr⌋ - k0 + 1
  { stats :=
      { network := g.network, station := g.station, location := g.location
        channel := g.channel, sampling_rate := sr
        starttime := g.segStart + (k0 : ℚ) / sr }
    data := (List.range n.toNat).map fun i => g.samples (k0.toNat + i) }

/-- Modelled from the spec: the Waveform Retriever (client.get_waveforms,
delegated to the external toolkit) returns one trace per archived
segment overlapping the requested window, each trimmed to the window;
segments not fully covering the window simply yield shorter traces (the
gap condition), not an error. -/
def getWaveforms (archive : List ArchiveSegment) (q : WaveformQuery) : Stream :=
  (archive.filter (segMatches q)).map (cutSegment q)

/-! ### Visualization Adapter -/

/-- Failure kinds of the Visualization Adapter: a missing optional
plotting backend is a capability-unavailable condition. -/
inductive VizError where
  | capabilityUnavailable
deriving DecidableEq, Repr

/-- The optional plotting backend: whether the mapping library needed for
geographic inventory plots is installed. -/
structure VizBackend where
  hasMapping : Bool
deriving DecidableEq, Repr

/-- A rendered geographic plot: one point per station. -/
structure MapRendering where
  points : List (ℚ × ℚ)
deriving DecidableEq, Repr

/-- Modelled from the spec: the Visualization Adapter (inventory.plot,
delegated to the external toolkit) renders the station map when the
mapping backend is available and reports a capability-unavailable
condition when it is not; in both cases it returns the inventory it was
given, performing no mutation of it. -/
def plotInventory (b : VizBackend) (inv : Inventory) :
    Except VizError MapRendering × Inventory :=
  if b.hasMapping then
    (.ok { points := inv.stationList.map fun s => (s.latitude, s.longitude) }, inv)
  else (.error .capabilityUnavailable, inv)

/-! ### Python object model for shallow copy and filtering (aliasing) -/

/-- The sample arrays live in a heap of arrays addressed by index, so
that sharing between a trace and its shallow copy is explicit. -/
abbrev ArrayHeap := List (List ℤ)

/-- A trace as a Python object: its stats plus a reference into the
array heap where its data lives. -/
structure TraceRef where
  stats : Stats
  dataRef : ℕ
deriving DecidableEq, Repr

/-- The sample array a trace reference currently designates. -/
def readSamples (h : ArrayHeap) (t : TraceRef) : List ℤ :=
  h.getD t.dataRef []

/-- Modelled from the spec/notebook: copy.copy produces a shallow copy,
a new trace object sharing the same data array reference. -/
def shallowCopy (t : TraceRef) : TraceRef := t

/-- Modelled from the spec/notebook: trace.filter computes a new sample
array from the current one and rebinds the receiver's data reference to
the freshly allocated array rather than writing into the shared one. -/
def filterRebind (kernel : List ℤ → List ℤ) (h : ArrayHeap) (t : TraceRef) :
    ArrayHeap × TraceRef :=
  (h ++ [kernel (readSamples h t)], { t with dataRef := h.length })

/-! ### Concrete example data for witnesses -/

/-- Example stats at 1 Hz for the merge examples, with the notebook's
network/station codes. -/
def exStats1 : Stats :=
  { network := "OO", station := "AXAS2", location := "", channel := "EHZ"
    sampling_rate := 1, starttime := 0 }

/-- First example trace for the merge examples: two samples at 1 Hz
starting at time 0, so its last sample is at time 1. -/
def exTrace1 : Trace := { stats := exStats1, data := [1, 2] }

/-- Second example trace: one sample at time 4, leaving a two-sample gap
after exTrace1. -/
def exTrace2 : Trace := { stats := { exStats1 with starttime := 4 }, data := [5] }

/-- A variant of the second example trace claiming the same identity but a
different sampling rate, as in the notebook cell that had to overwrite
sampling_rate to 200 to allow merging. -/
def exTrace2' : Trace :=
  { stats := { exStats1 with starttime := 4, sampling_rate := 2 }, data := [5] }

/-- An archived segment at 200 Hz covering the span 0 to 30 seconds, for
the waveform-window example. -/
def exSegment : ArchiveSegment :=
  { network := "OO", station := "AXAS1", location := "", channel := "EHZ"
    sampling_rate := 200, segStart := 0, segEnd := 30, samples := fun _ => 0 }

/-- A 20-second waveform request fully inside the example segment, with
the notebook's wildcard patterns. -/
def exWQuery : WaveformQuery :=
  { network := ["OO"], station := ["AX*"], location := ["*"], channel := ["E*Z"]
    starttime := 1, endtime := 21 }

/-- A small nonempty inventory for the visualization example. -/
def exInventory : Inventory :=
  { networks := [{ code := "OO"
                   stations := [{ code := "AXAS1", latitude := 4595/100
                                  longitude := -13001/100, channels := [] }] }] }

/-- An example heap holding one sample array, and a trace reference
designating it. -/
def exHeap : ArrayHeap := [[1, 2]]

/-- A trace object whose data reference designates the single array of
the example heap. -/
def exTraceRef : TraceRef := { stats := exStats1, dataRef := 0 }

end Seismic

namespace Seismic

/-- C1: for every Waveform Collection written to the MiniSEED container and
read back, each trace's sample array, start timestamp, sampling rate and
network/station/location/channel identity are exactly those of the
original (the round trip is in fact the identity on the modelled fields). -/
theorem mseed_roundtrip_lossless (st : Stream) :
    readMSEED (writeMSEED st) = st := by
  unfold readMSEED writeMSEED
  rw [List.map_map]
  apply List.map_id''
  intro t
  rfl

/-- C2: merging (method 0, constant fill value) two traces with identical
identity and sampling rate covering adjacent spans separated by a gap
succeeds, the merged sample count is the sum of the input counts plus
the gap sample count, and every sample inside the gap equals the
configured fill value. -/
theorem merge_gap_fill (fill : ℤ) (t1 t2 : Trace)
    (hid : t1.traceId = t2.traceId)
    (hsr : t1.stats.sampling_rate = t2.stats.sampling_rate)
    (hgap : t1.endtime < t2.stats.starttime) :
    ∃ t, mergeTwo fill t1 t2 = .ok t ∧
      t.npts = t1.npts + gapSampleCount t1 t2 + t2.npts ∧
      ∀ i, t1.npts ≤ i → i < t1.npts + gapSampleCount t1 t2 →
        t.data[i]? = some fill := by
  refine ⟨{ stats := t1.stats
            data := t1.data ++
              (List.replicate (gapSampleCount t1 t2) fill ++ t2.data) },
          ?_, ?_, ?_⟩
  · unfold mergeTwo
    rw [if_neg (by simp [hid]), if_neg (by simp [hsr])]
  · simp [Trace.npts, List.length_append, List.length_replicate]
    omega
  · intro i h1 h2
    have hlen : t1.data.length ≤ i := h1
    rw [List.getElem?_append_right hlen]
    rw [List.getElem?_append_left (by
      rw [List.length_replicate]
      simp only [Trace.npts] at h1 h2
      omega)]
    rw [List.getElem?_replicate]
    rw [if_pos (by
      simp only [Trace.npts] at h1 h2
      omega)]

/-- Witness for C2: merging the two example traces (1 Hz, gap of two
samples between times 1 and 4) with fill value 0 yields five samples
with zeros in positions 2 and 3. -/
theorem merge_gap_fill_witness :
    ∃ t, mergeTwo 0 exTrace1 exTrace2 = .ok t ∧
      t.npts = exTrace1.npts + gapSampleCount exTrace1 exTrace2 + exTrace2.npts ∧
      ∀ i, exTrace1.npts ≤ i → i < exTrace1.npts + gapSampleCount exTrace1 exTrace2 →
        t.data[i]? = some 0 :=
  merge_gap_fill 0 exTrace1 exTrace2 (by decide) (by decide) (by
    show exTrace1.endtime < (4 : ℚ)
    norm_num [Trace.endtime, Trace.npts, Stats.delta, exTrace1, exStats1])

/-- C4: merging traces that claim the same identity but have different
sampling rates fails explicitly with an incompatible-sampling-rates
error; the merge never silently resamples. -/
theorem merge_rejects_mismatched_rates (fill : ℤ) (t1 t2 : Trace)
    (hid : t1.traceId = t2.traceId)
    (hsr : t1.stats.sampling_rate ≠ t2.stats.sampling_rate) :
    mergeTwo fill t1 t2 = .error .incompatibleSamplingRates := by
  unfold mergeTwo
  rw [if_neg (by simp [hid]), if_pos hsr]

/-- Witness for C4: the example traces with equal identity but sampling
rates 1 and 2 fail to merge. -/
theorem merge_rejects_mismatched_rates_witness :
    mergeTwo 0 exTrace1 exTrace2' = .error .incompatibleSamplingRates :=
  merge_rejects_mismatched_rates 0 exTrace1 exTrace2' (by decide) (by decide)

/-- C3: a filter request whose maximum corner frequency reaches or exceeds
the Nyquist frequency (half the sampling rate) is flagged with a
warning, while a request whose corners are strictly below Nyquist is
applied (the kernel transforms the data) without any such flag. -/
theorem filter_nyquist_validation (kernel : FilterKind → List ℤ → List ℤ)
    (k : FilterKind) (t : Trace) :
    (t.stats.nyquist ≤ k.maxCorner →
      (traceFilter kernel k t).nyquistWarning = true) ∧
    (k.maxCorner < t.stats.nyquist →
      (traceFilter kernel k t).nyquistWarning = false ∧
      (traceFilter kernel k t).trace.data = kernel k t.data) := by
  constructor
  · intro h
    unfold traceFilter
    rw [if_pos h]
  · intro h
    unfold traceFilter
    rw [if_neg (not_le.mpr h)]
    exact ⟨rfl, rfl⟩

/-- Witness for C3: at 1 Hz (Nyquist 1/2), a highpass at corner 50 is
flagged, and a lowpass at corner 1/4 is applied unflagged. -/
theorem filter_nyquist_validation_witness :
    (traceFilter (fun _ d => d.map (2 * ·)) (.highpass 50) exTrace1).nyquistWarning
        = true ∧
    (traceFilter (fun _ d => d.map (2 * ·)) (.lowpass (1/4)) exTrace1).nyquistWarning
        = false :=
  ⟨(filter_nyquist_validation (fun _ d => d.map (2 * ·)) (.highpass 50) exTrace1).1
      (by norm_num [Stats.nyquist, FilterKind.maxCorner, exTrace1, exStats1]),
   ((filter_nyquist_validation (fun _ d => d.map (2 * ·)) (.lowpass (1/4)) exTrace1).2
      (by norm_num [Stats.nyquist, FilterKind.maxCorner, exTrace1, exStats1])).1⟩

/-- C5: a well-formed metadata query (end not before start) that matches
no holdings returns an empty Inventory rather than an error, while a
malformed time range (end before start) is reported as a usage error. -/
theorem getStations_empty_inventory (db : List StationRecord) (q : StationQuery) :
    (q.starttime ≤ q.endtime →
      (∀ r ∈ db, recordMatches q r = false) →
      getStations db q = .ok { networks := [] }) ∧
    (q.endtime < q.starttime → getStations db q = .error .badTimeRange) := by
  constructor
  · intro hvalid hnone
    unfold getStations
    rw [if_neg (not_lt.mpr hvalid)]
    have hfil : db.filter (recordMatches q) = [] := by
      rw [List.filter_eq_nil_iff]
      intro r hr
      simp [hnone r hr]
    simp [hfil]
  · intro hbad
    unfold getStations
    rw [if_pos hbad]

/-- Witness for C5: on the modelled holdings, the unknown-network query
returns an empty Inventory and the reversed time range is a usage
error. -/
theorem getStations_empty_inventory_witness :
    getStations tutorialDB noMatchQuery = .ok { networks := [] } ∧
    getStations tutorialDB badRangeQuery = .error .badTimeRange :=
  ⟨(getStations_empty_inventory tutorialDB noMatchQuery).1 (by decide) (by decide),
   (getStations_empty_inventory tutorialDB badRangeQuery).2 (by decide)⟩

/-- C6: querying the modelled holdings for network OO, station AXAS1,
channel pattern *Z over the one-day window at station-only detail
returns an Inventory with exactly one station, whose channels are
nonempty and all have codes ending in Z, and with zero
instrument-response entries. -/
theorem metadata_axas1_scenario :
    ∃ inv, getStations tutorialDB axasQuery = Except.ok inv ∧
      inv.stationList.length = 1 ∧
      (∀ s ∈ inv.stationList, s.channels ≠ [] ∧
        ∀ c ∈ s.channels, globMatch "*Z" c.code = true) ∧
      inv.responseCount = 0 := by
  refine ⟨_, rfl, ?_, ?_, ?_⟩ <;> decide

/-- C7: a waveform request over a 20-second window fully covered by a
matching archived segment returns exactly one trace, whose sample count
is within one sample of 20 times the sampling rate. -/
theorem waveform_20s_window (g : ArchiveSegment) (q : WaveformQuery)
    (hmatch : segMatches q g = true)
    (hdur : q.endtime = q.starttime + 20)
    (hcov1 : g.segStart ≤ q.starttime)
    (hcov2 : q.endtime ≤ g.segEnd)
    (hsr : 0 < g.sampling_rate) :
    ∃ tr, getWaveforms [g] q = [tr] ∧
      |(tr.npts : ℚ) - 20 * g.sampling_rate| ≤ 1 := by
  refine ⟨cutSegment q g, by simp [getWaveforms, hmatch], ?_⟩
  have ha : 0 ≤ (q.starttime - g.segStart) * g.sampling_rate :=
    mul_nonneg (by linarith) hsr.le
  have hk0 : max ⌈(q.starttime - g.segStart) * g.sampling_rate⌉ 0
      = ⌈(q.starttime - g.segStart) * g.sampling_rate⌉ :=
    max_eq_left (Int.ceil_nonneg ha)
  have hre : min q.endtime g.segEnd = q.endtime := min_eq_left hcov2
  have hn : (cutSegment q g).npts
      = (⌊(q.endtime - g.segStart) * g.sampling_rate⌋
          - ⌈(q.starttime - g.segStart) * g.sampling_rate⌉ + 1).toNat := by
    simp [cutSegment, Trace.npts, hk0, hre]
  have hEq : (q.endtime - g.segStart) * g.sampling_rate
      = (q.starttime - g.segStart) * g.sampling_rate + 20 * g.sampling_rate := by
    rw [hdur]; ring
  have f1 : (⌊(q.endtime - g.segStart) * g.sampling_rate⌋ : ℚ)
      ≤ (q.endtime - g.segStart) * g.sampling_rate := Int.floor_le _
  have f2 : (q.endtime - g.segStart) * g.sampling_rate
      < ⌊(q.endtime - g.segStart) * g.sampling_rate⌋ + 1 := Int.lt_floor_add_one _
  have c1 : (q.starttime - g.segStart) * g.sampling_rate
      ≤ (⌈(q.starttime - g.segStart) * g.sampling_rate⌉ : ℚ) := Int.le_ceil _
  have c2 : (⌈(q.starttime - g.segStart) * g.sampling_rate⌉ : ℚ)
      < (q.starttime - g.segStart) * g.sampling_rate + 1 := Int.ceil_lt_add_one _
  have hsr20 : (0 : ℚ) < 20 * g.sampling_rate := by linarith
  have hN0 : 0 ≤ ⌊(q.endtime - g.segStart) * g.sampling_rate⌋
      - ⌈(q.starttime - g.segStart) * g.sampling_rate⌉ + 1 := by
    have hq : (-1 : ℚ) < (⌊(q.endtime - g.segStart) * g.sampling_rate⌋ : ℚ)
        - (⌈(q.starttime - g.segStart) * g.sampling_rate⌉ : ℚ) + 1 := by linarith
    have hz : (-1 : ℤ) < ⌊(q.endtime - g.segStart) * g.sampling_rate⌋
        - ⌈(q.starttime - g.segStart) * g.sampling_rate⌉ + 1 := by exact_mod_cast hq
    omega
  have hq : (((⌊(q.endtime - g.segStart) * g.sampling_rate⌋
        - ⌈(q.starttime - g.segStart) * g.sampling_rate⌉ + 1).toNat : ℕ) : ℚ)
      = (⌊(q.endtime - g.segStart) * g.sampling_rate⌋ : ℚ)
        - (⌈(q.starttime - g.segStart) * g.sampling_rate⌉ : ℚ) + 1 := by
    rw [← Int.cast_natCast (R := ℚ), Int.toNat_of_nonneg hN0]
    push_cast
    ring
  rw [hn, abs_le, hq]
  constructor
  · linarith
  · linarith

/-- Witness for C7: the 20-second request on the example 200 Hz segment
returns one trace whose sample count is within one of 4000. -/
theorem waveform_20s_window_witness :
    ∃ tr, getWaveforms [exSegment] exWQuery = [tr] ∧
      |(tr.npts : ℚ) - 20 * exSegment.sampling_rate| ≤ 1 :=
  waveform_20s_window exSegment exWQuery (by decide)
    (by norm_num [exWQuery]) (by decide) (by decide) (by decide)

/-- C8: the visualization call leaves the inventory it renders entirely
unchanged, and when the optional mapping backend is unavailable it
reports a capability-unavailable condition. -/
theorem plot_failure_preserves_inventory (b : VizBackend) (inv : Inventory) :
    (plotInventory b inv).2 = inv ∧
    (b.hasMapping = false →
      (plotInventory b inv).1 = .error .capabilityUnavailable) := by
  cases hb : b.hasMapping <;> simp [plotInventory, hb]

/-- Witness for C8: plotting the example inventory with the mapping
backend absent errs with capability-unavailable and returns the
inventory unchanged. -/
theorem plot_failure_preserves_inventory_witness :
    (plotInventory { hasMapping := false } exInventory).2 = exInventory ∧
    (plotInventory { hasMapping := false } exInventory).1
        = .error .capabilityUnavailable :=
  ⟨(plot_failure_preserves_inventory { hasMapping := false } exInventory).1,
   (plot_failure_preserves_inventory { hasMapping := false } exInventory).2 rfl⟩

/-- C9: for every trace with positive sampling rate, the sample count
times the sampling interval equals the end time minus the start time to
within one sampling interval. -/
theorem trace_duration_invariant (t : Trace) (hsr : 0 < t.stats.sampling_rate) :
    |(t.npts : ℚ) * t.stats.delta - (t.endtime - t.stats.starttime)|
      ≤ t.stats.delta := by
  have hd : 0 < t.stats.delta := by
    unfold Stats.delta
    positivity
  have he : (t.npts : ℚ) * t.stats.delta - (t.endtime - t.stats.starttime)
      = t.stats.delta := by
    unfold Trace.endtime
    push_cast
    ring
  rw [he, abs_of_pos hd]

/-- Witness for C9: the first example trace (two samples at 1 Hz)
satisfies the duration invariant. -/
theorem trace_duration_invariant_witness :
    |(exTrace1.npts : ℚ) * exTrace1.stats.delta
        - (exTrace1.endtime - exTrace1.stats.starttime)| ≤ exTrace1.stats.delta :=
  trace_duration_invariant exTrace1 (by decide)

/-- C10: after a shallow copy of a trace, filtering the copy allocates a
fresh array and rebinds the copy's data reference, so the array the
original trace designates still holds the unfiltered samples. -/
theorem copy_then_filter_preserves_original (kernel : List ℤ → List ℤ)
    (h : ArrayHeap) (t : TraceRef) (href : t.dataRef < h.length) :
    readSamples (filterRebind kernel h (shallowCopy t)).1 t = readSamples h t ∧
    (filterRebind kernel h (shallowCopy t)).2.dataRef ≠ t.dataRef := by
  constructor
  · unfold filterRebind shallowCopy readSamples
    rw [List.getD_append _ _ _ _ href]
  · unfold filterRebind shallowCopy
    simp only []
    omega

/-- Witness for C10: on the example heap, filtering a shallow copy of the
example trace leaves the original's array readable and unchanged. -/
theorem copy_then_filter_preserves_original_witness :
    readSamples
        (filterRebind (fun d => d.map (2 * ·)) exHeap (shallowCopy exTraceRef)).1
        exTraceRef = readSamples exHeap exTraceRef ∧
    (filterRebind (fun d => d.map (2 * ·)) exHeap (shallowCopy exTraceRef)).2.dataRef
        ≠ exTraceRef.dataRef :=
  copy_then_filter_preserves_original (fun d => d.map (2 * ·)) exHeap exTraceRef
    (by decide)

end Seismic
